import Mathlib

/-!
Verification of the newsframing web-detection data-processing core
(`processors.py`): the multi-phase training-file discovery algorithm
(`MultiPhaseTrainProcessor.get_number_of_train_phases`), the three
row-to-example builders (`FrameProcessor._create_examples`,
`WebDetectProcessor._create_examples`, `WebDetectOnlyProcessor._create_examples`)
and the fixed label registry (`LABELS` / `get_labels`).

The embedding is shallow: a directory is its list of entry names, a pandas
data frame is a header plus a list of rows of optional cells (a missing cell,
pandas `NaN`, is `none`), and a raised Python exception is the `Except.error`
branch.
-/

namespace NewsFraming

/-! ## Phase Discoverer (`MultiPhaseTrainProcessor.get_number_of_train_phases`) -/

/-- Lexicographic code-point comparison of character lists: the order Python
uses to compare strings.  Structural recursion so that it evaluates by `decide`
and `rfl`. -/
def charListLt : List Char → List Char → Bool
  | _, [] => false
  | [], _ :: _ => true
  | c :: cs, d :: ds => if c < d then true else if d < c then false else charListLt cs ds

/-- Python `a < b` on strings: lexicographic comparison of their characters
(code points). -/
def strLtB (a b : String) : Bool := charListLt a.data b.data

/-- Insert a string into an already-sorted list, keeping ascending order.
The element goes before the first entry not strictly below it, which gives the
stable ascending order of Python `sorted`. -/
def insertSorted (s : String) : List String → List String
  | [] => [s]
  | t :: ts => if strLtB t s then t :: insertSorted s ts else s :: t :: ts

/-- Python `sorted(names)`: ascending lexicographic sort of the directory
entry names (insertion sort; on a linear order any correct sort yields the
same list). -/
def sortStrings : List String → List String
  | [] => []
  | s :: ss => insertSorted s (sortStrings ss)

/-- Python `s.startswith("train") and s.endswith(".tsv")` from the filter in
`get_number_of_train_phases`: prefix/suffix tests on the character lists. -/
def isTrainTsv (s : String) : Bool :=
  "train".data.isPrefixOf s.data && ".tsv".data.isSuffixOf s.data

/-- The `train_prefixed_files` local of `get_number_of_train_phases`:
sort the directory listing and keep the names matching the filter.  (The
Python sorts first and filters second; filtering preserves sortedness.) -/
def trainPrefixedFiles (listing : List String) : List String :=
  (sortStrings listing).filter isTrainTsv

/-- The f-string `f"train{i}.tsv"` used by the sequential-naming check. -/
def trainFileName (i : Nat) : String := "train" ++ toString i ++ ".tsv"

/-- The `for i, basename in enumerate(train_prefixed_files, start=1)` loop:
`true` when every position `i` (1-based) holds exactly `train{i}.tsv`,
`false` as soon as one position deviates (the Python raises there). -/
def checkSequential : Nat → List String → Bool
  | _, [] => true
  | i, b :: rest => if trainFileName i = b then checkSequential (i + 1) rest else false

/-- The message of the exception raised on a naming inconsistency. -/
def namingErrorMsg : String :=
  "Did not find files sequentially named 'train1.tsv', 'train2.tsv'."

/-- Body of `get_number_of_train_phases` after the listing has been sorted and
filtered: the single-`train.tsv` special case returns 0, otherwise the
sequential check either passes (returning the count) or raises. -/
def phasesFromFiles (files : List String) : Except String Nat :=
  if files.length = 1 ∧ files.headD "" = "train.tsv" then Except.ok 0
  else if checkSequential 1 files then Except.ok files.length
  else Except.error namingErrorMsg

/-- `MultiPhaseTrainProcessor.get_number_of_train_phases`, as a function of
the directory listing (the entry names `Path(data_dir).iterdir()` yields). -/
def get_number_of_train_phases (listing : List String) : Except String Nat :=
  phasesFromFiles (trainPrefixedFiles listing)

/-! ## Label registry -/

/-- `LABELS = [str(i) for i in range(1, 10)]`. -/
def LABELS : List String := (List.range' 1 9).map (fun i => toString i)

/-- `FrameProcessor.get_labels`, which returns the module-level `LABELS`. -/
def get_labels : List String := LABELS

/-! ## Example Builder (`_create_examples` of the three processors) -/

/-- `transformers` `InputExample`: an identifier, one or two text fields and a
label.  `text_b` is `none` when the constructor is called without it. -/
structure InputExample where
  guid : String
  text_a : String
  text_b : Option String
  label : String
deriving DecidableEq, Repr

/-- A loaded data frame: the column names and, per row, one optional cell per
column (`none` is a pandas `NaN`, i.e. a blank cell).  `_read_csv` parses with
`dtype=object`, so present cells are strings. -/
structure Table where
  header : List String
  rows : List (List (Option String))
deriving DecidableEq, Repr

/-- `row.fillna("")` followed by viewing the row as a name-to-value mapping:
pair each column name with its cell, turning a missing cell into `""`. -/
def fillRow (header : List String) (data : List (Option String)) :
    List (String × String) :=
  (header.zip data).map (fun p => (p.1, p.2.getD ""))

/-- `row[c]` on a filled row: the value under column `c`, or a `KeyError` when
the column is absent. -/
def getCol (row : List (String × String)) (c : String) : Except String String :=
  match row.lookup c with
  | some v => Except.ok v
  | none => Except.error ("KeyError: " ++ c)

/-- The guid format string `"%s-image_id_%s-id_%s" % (set_type, row["ImageID"], row["ID"])`. -/
def frameGuid (set_type imageId rid : String) : String :=
  set_type ++ "-image_id_" ++ imageId ++ "-id_" ++ rid

/-- The filled value of column `c` in a row (empty string when the column is
missing); used to state what the builders put into each field. -/
def rowCell (header : List String) (data : List (Option String)) (c : String) : String :=
  ((fillRow header data).lookup c).getD ""

/-- Loop body of `FrameProcessor._create_examples` for one row: fill missing
cells, read `ImageID` and `ID` for the guid, `news_title` for `text_a` and
`Q3 Theme1` for the label, in the Python evaluation order; any `KeyError`
aborts the call. -/
def frameRow (header : List String) (set_type : String) (data : List (Option String)) :
    Except String InputExample :=
  let row := fillRow header data
  match getCol row "ImageID" with
  | Except.error e => Except.error e
  | Except.ok imageId =>
    match getCol row "ID" with
    | Except.error e => Except.error e
    | Except.ok rid =>
      match getCol row "news_title" with
      | Except.error e => Except.error e
      | Except.ok ta =>
        match getCol row "Q3 Theme1" with
        | Except.error e => Except.error e
        | Except.ok lab =>
          Except.ok { guid := frameGuid set_type imageId rid, text_a := ta,
                      text_b := none, label := lab }

/-- Loop body of `WebDetectProcessor._create_examples` for one row: as
`frameRow` but additionally reading `WebDetectEntities` into `text_b`. -/
def webdetectRow (header : List String) (set_type : String) (data : List (Option String)) :
    Except String InputExample :=
  let row := fillRow header data
  match getCol row "ImageID" with
  | Except.error e => Except.error e
  | Except.ok imageId =>
    match getCol row "ID" with
    | Except.error e => Except.error e
    | Except.ok rid =>
      match getCol row "news_title" with
      | Except.error e => Except.error e
      | Except.ok ta =>
        match getCol row "WebDetectEntities" with
        | Except.error e => Except.error e
        | Except.ok tb =>
          match getCol row "Q3 Theme1" with
          | Except.error e => Except.error e
          | Except.ok lab =>
            Except.ok { guid := frameGuid set_type imageId rid, text_a := ta,
                        text_b := some tb, label := lab }

/-- Loop body of `WebDetectOnlyProcessor._create_examples` for one row: the
guid as in `frameRow`, but `text_a` comes from `WebDetectEntities` and no
`text_b` is set. -/
def webdetectonlyRow (header : List String) (set_type : String) (data : List (Option String)) :
    Except String InputExample :=
  let row := fillRow header data
  match getCol row "ImageID" with
  | Except.error e => Except.error e
  | Except.ok imageId =>
    match getCol row "ID" with
    | Except.error e => Except.error e
    | Except.ok rid =>
      match getCol row "WebDetectEntities" with
      | Except.error e => Except.error e
      | Except.ok ta =>
        match getCol row "Q3 Theme1" with
        | Except.error e => Except.error e
        | Except.ok lab =>
          Except.ok { guid := frameGuid set_type imageId rid, text_a := ta,
                      text_b := none, label := lab }

/-- The `for _, row in df.iterrows(): ... examples.append(...)` loop: apply
the per-row builder to each row in table order, collecting the results; an
exception on any row aborts the whole call with no partial list. -/
def exceptMap {α β : Type} (f : α → Except String β) : List α → Except String (List β)
  | [] => Except.ok []
  | a :: l =>
    match f a with
    | Except.error e => Except.error e
    | Except.ok b =>
      match exceptMap f l with
      | Except.error e => Except.error e
      | Except.ok bs => Except.ok (b :: bs)

/-- `FrameProcessor._create_examples(df, set_type)` (the "base" variant). -/
def frame_create_examples (t : Table) (set_type : String) :
    Except String (List InputExample) :=
  exceptMap (frameRow t.header set_type) t.rows

/-- `WebDetectProcessor._create_examples(df, set_type)` (the "base+secondary"
variant). -/
def webdetect_create_examples (t : Table) (set_type : String) :
    Except String (List InputExample) :=
  exceptMap (webdetectRow t.header set_type) t.rows

/-- `WebDetectOnlyProcessor._create_examples(df, set_type)` (the
"secondary-only" variant). -/
def webdetectonly_create_examples (t : Table) (set_type : String) :
    Except String (List InputExample) :=
  exceptMap (webdetectonlyRow t.header set_type) t.rows

/-! ## Helper lemmas -/

/-- Membership in an insertion is membership in the inserted element or the list. -/
theorem mem_insertSorted {x s : String} : ∀ {l : List String},
    x ∈ insertSorted s l ↔ x = s ∨ x ∈ l := by
  intro l
  induction l with
  | nil => simp [insertSorted]
  | cons t ts ih =>
    simp only [insertSorted]
    split <;> simp only [List.mem_cons, ih] <;> tauto

/-- Sorting preserves the members of the listing. -/
theorem mem_sortStrings {x : String} : ∀ {l : List String},
    x ∈ sortStrings l ↔ x ∈ l := by
  intro l
  induction l with
  | nil => simp [sortStrings]
  | cons s ss ih =>
    simp only [sortStrings, mem_insertSorted, ih, List.mem_cons]

/-- A list of length one is the singleton of its default head. -/
theorem eq_singleton_of_length_one {l : List String} (h : l.length = 1) :
    l = [l.headD ""] := by
  cases l with
  | nil => simp at h
  | cons a t =>
    cases t with
    | nil => rfl
    | cons b t' => simp at h

/-- When the sequential check succeeds, position `j` (0-based) of the list
holds exactly `train{i+j}.tsv`. -/
theorem checkSequential_get_of_true : ∀ {l : List String} {i : Nat},
    checkSequential i l = true → ∀ j (hj : j < l.length),
    l.get ⟨j, hj⟩ = trainFileName (i + j) := by
  intro l
  induction l with
  | nil => intro i _ j hj; simp at hj
  | cons b rest ih =>
    intro i hc j hj
    rw [checkSequential] at hc
    by_cases hb : trainFileName i = b
    · rw [if_pos hb] at hc
      cases j with
      | zero => simpa using hb.symm
      | succ j' =>
        have := ih hc j' (Nat.lt_of_succ_lt_succ hj)
        simpa [Nat.add_assoc, Nat.add_comm 1 j'] using this
    · rw [if_neg hb] at hc
      exact absurd hc (by simp)

/-- Looking a key up after mapping the values is mapping the lookup result. -/
theorem lookup_map_snd {β γ : Type} (f : β → γ) (c : String) :
    ∀ (l : List (String × β)),
    (l.map (fun p => (p.1, f p.2))).lookup c = (l.lookup c).map f := by
  intro l
  induction l with
  | nil => rfl
  | cons p ps ih =>
    obtain ⟨k, v⟩ := p
    simp only [List.map_cons, List.lookup]
    cases h : c == k <;> simp [h, ih]

/-- Lookup on the filled row is lookup on the raw zipped row with missing
cells turned into the empty string. -/
theorem lookup_fillRow (header : List String) (data : List (Option String)) (c : String) :
    (fillRow header data).lookup c =
      ((header.zip data).lookup c).map (fun o => o.getD "") := by
  unfold fillRow
  exact lookup_map_snd (fun o => o.getD "") c (header.zip data)

/-- A column absent from the header is absent from any zipped row. -/
theorem lookup_zip_none {β : Type} {h : List String} {c : String} (hc : c ∉ h) :
    ∀ d : List β, (h.zip d).lookup c = none := by
  induction h with
  | nil => intro d; simp
  | cons x xs ih =>
    intro d
    cases d with
    | nil => simp
    | cons y ys =>
      simp only [List.zip_cons_cons, List.lookup]
      have hne : (c == x) = false := beq_eq_false_iff_ne.mpr
        (fun he => hc (he ▸ List.mem_cons_self x xs))
      rw [hne]
      exact ih (fun hm => hc (List.mem_cons_of_mem x hm)) ys

/-- A column present in the header is found in any row at least as long as the
header. -/
theorem lookup_zip_isSome {β : Type} {h : List String} {c : String} (hc : c ∈ h) :
    ∀ d : List β, h.length ≤ d.length → ∃ v, (h.zip d).lookup c = some v := by
  induction h with
  | nil => simp at hc
  | cons x xs ih =>
    intro d hd
    cases d with
    | nil => simp at hd
    | cons y ys =>
      simp only [List.zip_cons_cons, List.lookup]
      cases hb : c == x with
      | true => exact ⟨y, rfl⟩
      | false =>
        have hmem : c ∈ xs := by
          rcases List.mem_cons.mp hc with h1 | h2
          · exact absurd h1 (beq_eq_false_iff_ne.mp hb)
          · exact h2
        exact ih hmem ys (Nat.le_of_succ_le_succ hd)

/-- `getCol` succeeds exactly with the looked-up value. -/
theorem getCol_ok_iff {row : List (String × String)} {c v : String} :
    getCol row c = Except.ok v ↔ row.lookup c = some v := by
  unfold getCol
  cases h : row.lookup c <;> simp

/-- A successful `exceptMap` relates input and output lists elementwise. -/
theorem exceptMap_ok_forall2 {α β : Type} {f : α → Except String β} :
    ∀ {l : List α} {es : List β}, exceptMap f l = Except.ok es →
    List.Forall₂ (fun a b => f a = Except.ok b) l es := by
  intro l
  induction l with
  | nil =>
    intro es h
    rw [exceptMap] at h
    cases h
    exact List.Forall₂.nil
  | cons a l' ih =>
    intro es h
    rw [exceptMap] at h
    cases hf : f a with
    | error e => rw [hf] at h; exact absurd h (by simp)
    | ok b =>
      rw [hf] at h
      cases hm : exceptMap f l' with
      | error e => rw [hm] at h; exact absurd h (by simp)
      | ok bs =>
        rw [hm] at h
        cases h
        exact List.Forall₂.cons hf (ih hm)

/-- Two elementwise-related results of the same input list have pointwise
related projections. -/
theorem forall2_map_eq {α β γ δ : Type} {R₁ : α → β → Prop} {R₂ : α → γ → Prop}
    {p : β → δ} {q : γ → δ}
    (hc : ∀ a b c, R₁ a b → R₂ a c → p b = q c) :
    ∀ {l : List α} {l₁ : List β} {l₂ : List γ},
    List.Forall₂ R₁ l l₁ → List.Forall₂ R₂ l l₂ → l₁.map p = l₂.map q := by
  intro l
  induction l with
  | nil =>
    intro l₁ l₂ h1 h2
    cases h1; cases h2; rfl
  | cons a l' ih =>
    intro l₁ l₂ h1 h2
    cases h1 with
    | cons hb h1' =>
      cases h2 with
      | cons hcrel h2' =>
        simp only [List.map_cons, hc a _ _ hb hcrel, ih h1' h2']

/-- Every element of the right list of a `Forall₂` is related to some member
of the left list. -/
theorem forall2_mem_right {α β : Type} {R : α → β → Prop} :
    ∀ {l₁ : List α} {l₂ : List β}, List.Forall₂ R l₁ l₂ →
    ∀ b ∈ l₂, ∃ a ∈ l₁, R a b := by
  intro l₁
  induction l₁ with
  | nil =>
    intro l₂ h b hb
    cases h; simp at hb
  | cons a l' ih =>
    intro l₂ h b hb
    cases h with
    | cons hr h' =>
      rcases List.mem_cons.mp hb with rfl | hb'
      · exact ⟨a, List.mem_cons_self a l', hr⟩
      · obtain ⟨a', ha', hra'⟩ := ih h' b hb'
        exact ⟨a', List.mem_cons_of_mem a ha', hra'⟩

/-- Pairwise separation transports along an elementwise relation. -/
theorem forall2_pairwise {α β : Type} {R : α → β → Prop} {P : α → α → Prop}
    {Q : β → β → Prop} :
    ∀ {l₁ : List α} {l₂ : List β}, List.Forall₂ R l₁ l₂ → List.Pairwise P l₁ →
    (∀ a ∈ l₁, ∀ a' ∈ l₁, ∀ b b', R a b → R a' b' → P a a' → Q b b') →
    List.Pairwise Q l₂ := by
  intro l₁
  induction l₁ with
  | nil =>
    intro l₂ h _ _
    cases h; exact List.Pairwise.nil
  | cons a l' ih =>
    intro l₂ h hp himp
    cases h with
    | cons hr h' =>
      rw [List.pairwise_cons] at hp
      refine List.Pairwise.cons ?_ ?_
      · intro b' hb'
        obtain ⟨a', ha', hra'⟩ := forall2_mem_right h' b' hb'
        exact himp a (List.mem_cons_self a l') a' (List.mem_cons_of_mem a ha') _ _
          hr hra' (hp.1 a' ha')
      · exact ih h' hp.2 (fun x hx x' hx' b b' h1 h2 h3 =>
          himp x (List.mem_cons_of_mem a hx) x' (List.mem_cons_of_mem a hx') b b' h1 h2 h3)

/-- A successful `frameRow` produces exactly the fields read from the filled
row: guid from `ImageID` and `ID`, `text_a` from `news_title`, no `text_b`,
label from `Q3 Theme1`. -/
theorem frameRow_ok_parts {header : List String} {s : String}
    {data : List (Option String)} {e : InputExample}
    (h : frameRow header s data = Except.ok e) :
    e.guid = frameGuid s (rowCell header data "ImageID") (rowCell header data "ID") ∧
    e.text_a = rowCell header data "news_title" ∧
    e.text_b = none ∧
    e.label = rowCell header data "Q3 Theme1" := by
  rw [frameRow] at h
  cases h1 : getCol (fillRow header data) "ImageID" with
  | error e1 => rw [h1] at h; exact absurd h (by simp)
  | ok imageId =>
  rw [h1] at h
  cases h2 : getCol (fillRow header data) "ID" with
  | error e2 => rw [h2] at h; exact absurd h (by simp)
  | ok rid =>
  rw [h2] at h
  cases h3 : getCol (fillRow header data) "news_title" with
  | error e3 => rw [h3] at h; exact absurd h (by simp)
  | ok ta =>
  rw [h3] at h
  cases h4 : getCol (fillRow header data) "Q3 Theme1" with
  | error e4 => rw [h4] at h; exact absurd h (by simp)
  | ok lab =>
  rw [h4] at h
  cases h
  refine ⟨?_, ?_, rfl, ?_⟩ <;>
    simp [rowCell, getCol_ok_iff.mp h1, getCol_ok_iff.mp h2,
      getCol_ok_iff.mp h3, getCol_ok_iff.mp h4]

/-- A successful `webdetectRow` reads `text_a` from `news_title` and `text_b`
from `WebDetectEntities` of the filled row. -/
theorem webdetectRow_ok_parts {header : List String} {s : String}
    {data : List (Option String)} {e : InputExample}
    (h : webdetectRow header s data = Except.ok e) :
    e.text_a = rowCell header data "news_title" ∧
    e.text_b = some (rowCell header data "WebDetectEntities") := by
  rw [webdetectRow] at h
  cases h1 : getCol (fillRow header data) "ImageID" with
  | error e1 => rw [h1] at h; exact absurd h (by simp)
  | ok imageId =>
  rw [h1] at h
  cases h2 : getCol (fillRow header data) "ID" with
  | error e2 => rw [h2] at h; exact absurd h (by simp)
  | ok rid =>
  rw [h2] at h
  cases h3 : getCol (fillRow header data) "news_title" with
  | error e3 => rw [h3] at h; exact absurd h (by simp)
  | ok ta =>
  rw [h3] at h
  cases h4 : getCol (fillRow header data) "WebDetectEntities" with
  | error e4 => rw [h4] at h; exact absurd h (by simp)
  | ok tb =>
  rw [h4] at h
  cases h5 : getCol (fillRow header data) "Q3 Theme1" with
  | error e5 => rw [h5] at h; exact absurd h (by simp)
  | ok lab =>
  rw [h5] at h
  cases h
  refine ⟨?_, ?_⟩ <;>
    simp [rowCell, getCol_ok_iff.mp h3, getCol_ok_iff.mp h4]

/-- A successful `webdetectonlyRow` reads `text_a` from `WebDetectEntities`
of the filled row. -/
theorem webdetectonlyRow_ok_parts {header : List String} {s : String}
    {data : List (Option String)} {e : InputExample}
    (h : webdetectonlyRow header s data = Except.ok e) :
    e.text_a = rowCell header data "WebDetectEntities" := by
  rw [webdetectonlyRow] at h
  cases h1 : getCol (fillRow header data) "ImageID" with
  | error e1 => rw [h1] at h; exact absurd h (by simp)
  | ok imageId =>
  rw [h1] at h
  cases h2 : getCol (fillRow header data) "ID" with
  | error e2 => rw [h2] at h; exact absurd h (by simp)
  | ok rid =>
  rw [h2] at h
  cases h3 : getCol (fillRow header data) "WebDetectEntities" with
  | error e3 => rw [h3] at h; exact absurd h (by simp)
  | ok ta =>
  rw [h3] at h
  cases h4 : getCol (fillRow header data) "Q3 Theme1" with
  | error e4 => rw [h4] at h; exact absurd h (by simp)
  | ok lab =>
  rw [h4] at h
  cases h
  simp [rowCell, getCol_ok_iff.mp h3]

/-- A successful `frameRow` requires every one of the four referenced columns
to be found in the filled row. -/
theorem frameRow_ok_lookup {header : List String} {s : String}
    {data : List (Option String)} {e : InputExample}
    (h : frameRow header s data = Except.ok e) :
    ∀ c, c = "ImageID" ∨ c = "ID" ∨ c = "news_title" ∨ c = "Q3 Theme1" →
    ∃ v, (fillRow header data).lookup c = some v := by
  rw [frameRow] at h
  cases h1 : getCol (fillRow header data) "ImageID" with
  | error e1 => rw [h1] at h; exact absurd h (by simp)
  | ok imageId =>
  rw [h1] at h
  cases h2 : getCol (fillRow header data) "ID" with
  | error e2 => rw [h2] at h; exact absurd h (by simp)
  | ok rid =>
  rw [h2] at h
  cases h3 : getCol (fillRow header data) "news_title" with
  | error e3 => rw [h3] at h; exact absurd h (by simp)
  | ok ta =>
  rw [h3] at h
  cases h4 : getCol (fillRow header data) "Q3 Theme1" with
  | error e4 => rw [h4] at h; exact absurd h (by simp)
  | ok lab =>
  intro c hc
  rcases hc with rfl | rfl | rfl | rfl
  · exact ⟨imageId, getCol_ok_iff.mp h1⟩
  · exact ⟨rid, getCol_ok_iff.mp h2⟩
  · exact ⟨ta, getCol_ok_iff.mp h3⟩
  · exact ⟨lab, getCol_ok_iff.mp h4⟩

/-- The guid composition is injective in the two id fields as long as the
second fields have the same length (the separators alone do not disambiguate
arbitrary id strings). -/
theorem frameGuid_inj {s a₁ b₁ a₂ b₂ : String} (hlen : b₁.length = b₂.length)
    (h : frameGuid s a₁ b₁ = frameGuid s a₂ b₂) : a₁ = a₂ ∧ b₁ = b₂ := by
  unfold frameGuid at h
  have hdata : s.data ++ "-image_id_".data ++ a₁.data ++ "-id_".data ++ b₁.data =
      s.data ++ "-image_id_".data ++ a₂.data ++ "-id_".data ++ b₂.data := by
    have := congrArg String.data h
    simpa [String.data_append] using this
  rw [List.append_assoc (s.data ++ "-image_id_".data ++ a₁.data),
    List.append_assoc (s.data ++ "-image_id_".data),
    List.append_assoc (s.data ++ "-image_id_".data ++ a₂.data),
    List.append_assoc (s.data ++ "-image_id_".data)] at hdata
  have hmid := List.append_cancel_left hdata
  have hlen' : ("-id_".data ++ b₁.data).length = ("-id_".data ++ b₂.data).length := by
    simp only [List.length_append]
    have : b₁.data.length = b₂.data.length := hlen
    omega
  obtain ⟨ha, hb⟩ := List.append_inj' hmid hlen'
  exact ⟨String.ext ha, String.ext (List.append_cancel_left hb)⟩

/-- When the four referenced columns are present and the row is as wide as the
header, `frameRow` succeeds. -/
theorem frameRow_ok_of_cols {header : List String} {data : List (Option String)}
    (s : String)
    (h1 : "ImageID" ∈ header) (h2 : "ID" ∈ header)
    (h3 : "news_title" ∈ header) (h4 : "Q3 Theme1" ∈ header)
    (hw : header.length ≤ data.length) :
    ∃ e, frameRow header s data = Except.ok e := by
  have get1 : ∃ v, getCol (fillRow header data) "ImageID" = Except.ok v := by
    obtain ⟨v, hv⟩ := lookup_zip_isSome h1 data hw
    exact ⟨v.getD "", getCol_ok_iff.mpr (by rw [lookup_fillRow, hv]; rfl)⟩
  have get2 : ∃ v, getCol (fillRow header data) "ID" = Except.ok v := by
    obtain ⟨v, hv⟩ := lookup_zip_isSome h2 data hw
    exact ⟨v.getD "", getCol_ok_iff.mpr (by rw [lookup_fillRow, hv]; rfl)⟩
  have get3 : ∃ v, getCol (fillRow header data) "news_title" = Except.ok v := by
    obtain ⟨v, hv⟩ := lookup_zip_isSome h3 data hw
    exact ⟨v.getD "", getCol_ok_iff.mpr (by rw [lookup_fillRow, hv]; rfl)⟩
  have get4 : ∃ v, getCol (fillRow header data) "Q3 Theme1" = Except.ok v := by
    obtain ⟨v, hv⟩ := lookup_zip_isSome h4 data hw
    exact ⟨v.getD "", getCol_ok_iff.mpr (by rw [lookup_fillRow, hv]; rfl)⟩
  obtain ⟨v1, hv1⟩ := get1
  obtain ⟨v2, hv2⟩ := get2
  obtain ⟨v3, hv3⟩ := get3
  obtain ⟨v4, hv4⟩ := get4
  exact ⟨{ guid := frameGuid s v1 v2, text_a := v3, text_b := none, label := v4 },
    by rw [frameRow, hv1, hv2, hv3, hv4]⟩

/-! ## Claim theorems -/

/-- C10: `get_labels()` always returns the fixed ordered list of exactly 9
distinct string labels, the decimal strings "1" through "9" in ascending
order. -/
theorem get_labels_fixed_nine :
    get_labels = ["1", "2", "3", "4", "5", "6", "7", "8", "9"] ∧
    get_labels.length = 9 ∧ get_labels.Nodup :=
  ⟨rfl, rfl, by decide⟩

/-- C6: for every directory in which the single matched train-prefixed `.tsv`
entry is exactly `train.tsv`, `get_number_of_train_phases` returns 0. -/
theorem count_phases_single_unnumbered (listing : List String)
    (h : trainPrefixedFiles listing = ["train.tsv"]) :
    get_number_of_train_phases listing = Except.ok 0 := by
  unfold get_number_of_train_phases
  rw [h]
  rfl

/-- C6 witness: a directory listing whose only train-prefixed `.tsv` entry is
`train.tsv` yields phase count 0. -/
theorem count_phases_single_unnumbered_witness :
    trainPrefixedFiles ["dev.tsv", "train.tsv", "test.tsv"] = ["train.tsv"] ∧
    get_number_of_train_phases ["dev.tsv", "train.tsv", "test.tsv"] = Except.ok 0 :=
  ⟨rfl, count_phases_single_unnumbered ["dev.tsv", "train.tsv", "test.tsv"] rfl⟩

/-- C7: for every directory containing no entry that starts with "train" and
ends with ".tsv", `get_number_of_train_phases` returns 0 rather than
failing. -/
theorem count_phases_no_matches (listing : List String)
    (h : ∀ s ∈ listing, isTrainTsv s = false) :
    get_number_of_train_phases listing = Except.ok 0 := by
  have hfilter : trainPrefixedFiles listing = [] := by
    apply List.filter_eq_nil_iff.mpr
    intro a ha
    simp [h a (mem_sortStrings.mp ha)]
  unfold get_number_of_train_phases
  rw [hfilter]
  rfl

/-- C7 witness: a directory with only `dev.tsv` and `test.tsv` yields phase
count 0. -/
theorem count_phases_no_matches_witness :
    get_number_of_train_phases ["dev.tsv", "test.tsv"] = Except.ok 0 :=
  count_phases_no_matches ["dev.tsv", "test.tsv"] (by decide)

/-- C1 (amended): for every directory whose matched train-prefixed `.tsv`
entries, in ascending lexical order, are exactly `train1.tsv` .. `trainK.tsv`
for some 1 ≤ K ≤ 9, `get_number_of_train_phases` returns K. -/
theorem count_phases_sequential (listing : List String) (K : Nat)
    (hK1 : 1 ≤ K) (hK9 : K ≤ 9)
    (hfiles : trainPrefixedFiles listing = (List.range' 1 K).map trainFileName) :
    get_number_of_train_phases listing = Except.ok K := by
  unfold get_number_of_train_phases
  rw [hfiles]
  interval_cases K <;> rfl

/-- C1 witness: a directory listing `train1.tsv` and `train2.tsv` (among other
entries, unsorted) yields phase count 2. -/
theorem count_phases_sequential_witness :
    trainPrefixedFiles ["notes.txt", "train2.tsv", "dev.tsv", "train1.tsv"] =
      (List.range' 1 2).map trainFileName ∧
    get_number_of_train_phases ["notes.txt", "train2.tsv", "dev.tsv", "train1.tsv"] =
      Except.ok 2 :=
  ⟨rfl, count_phases_sequential ["notes.txt", "train2.tsv", "dev.tsv", "train1.tsv"] 2
    (by decide) (by decide) rfl⟩

/-- C1 counterexample: a directory containing exactly `train1.tsv` through
`train10.tsv` (K = 10, no gaps) makes `get_number_of_train_phases` raise the
naming-inconsistency error instead of returning 10, because ascending lexical
order puts `train10.tsv` at position 2. -/
theorem count_phases_ten_files_error :
    (List.range' 1 10).map trainFileName =
      ["train1.tsv", "train2.tsv", "train3.tsv", "train4.tsv", "train5.tsv",
       "train6.tsv", "train7.tsv", "train8.tsv", "train9.tsv", "train10.tsv"] ∧
    get_number_of_train_phases ((List.range' 1 10).map trainFileName) =
      Except.error namingErrorMsg :=
  ⟨rfl, rfl⟩

/-- C5 (amended): whenever the matched train-prefixed `.tsv` names, in
ascending lexical order, have some 1-based position `i + 1` whose name is not
exactly `train{i+1}.tsv`, and the matched list is not the single name
`train.tsv` (the unnumbered special case, which returns 0),
`get_number_of_train_phases` fails with the naming-inconsistency error. -/
theorem count_phases_misnamed_error (listing : List String) (i : Nat)
    (hi : i < (trainPrefixedFiles listing).length)
    (hname : (trainPrefixedFiles listing).get ⟨i, hi⟩ ≠ trainFileName (i + 1))
    (hsingle : trainPrefixedFiles listing ≠ ["train.tsv"]) :
    get_number_of_train_phases listing = Except.error namingErrorMsg := by
  unfold get_number_of_train_phases phasesFromFiles
  rw [if_neg, if_neg]
  · intro hseq
    exact hname (by
      rw [checkSequential_get_of_true hseq i hi, Nat.add_comm])
  · rintro ⟨hlen, hhead⟩
    exact hsingle (by rw [eq_singleton_of_length_one hlen, hhead])

/-- C5 witness: a directory containing exactly `train1.tsv` and `train3.tsv`
(gap at 2) makes `get_number_of_train_phases` raise the naming-inconsistency
error. -/
theorem count_phases_misnamed_error_witness :
    get_number_of_train_phases ["train1.tsv", "train3.tsv"] =
      Except.error namingErrorMsg :=
  count_phases_misnamed_error ["train1.tsv", "train3.tsv"] 1
    (by decide) (by decide) (by decide)

/-- C5 counterexample: the matched list `["train.tsv"]` has position 1 holding
`train.tsv`, which is not `train1.tsv`, yet `get_number_of_train_phases`
returns 0 instead of failing. -/
theorem count_phases_misnamed_special_case :
    trainPrefixedFiles ["train.tsv"] = ["train.tsv"] ∧
    (trainPrefixedFiles ["train.tsv"]).headD "" ≠ trainFileName 1 ∧
    get_number_of_train_phases ["train.tsv"] = Except.ok 0 :=
  ⟨rfl, by decide, rfl⟩

/-- Helper for C4: over any row list that is wide enough for the header, the
base builder succeeds row by row, producing one example per row in order with
the composed guid. -/
theorem frame_rows_ok (hdr : List String) (s : String)
    (h1 : "ImageID" ∈ hdr) (h2 : "ID" ∈ hdr)
    (h3 : "news_title" ∈ hdr) (h4 : "Q3 Theme1" ∈ hdr) :
    ∀ rows : List (List (Option String)), (∀ d ∈ rows, hdr.length ≤ d.length) →
    ∃ es, exceptMap (frameRow hdr s) rows = Except.ok es ∧
      es.length = rows.length ∧
      es.map InputExample.guid =
        rows.map (fun d => frameGuid s (rowCell hdr d "ImageID") (rowCell hdr d "ID")) := by
  intro rows
  induction rows with
  | nil => exact fun _ => ⟨[], rfl, rfl, rfl⟩
  | cons d ds ih =>
    intro hrect
    obtain ⟨e, he⟩ := frameRow_ok_of_cols s h1 h2 h3 h4 (hrect d (List.mem_cons_self d ds))
    obtain ⟨es, hes, hlen, hmap⟩ := ih (fun d' hd' => hrect d' (List.mem_cons_of_mem d hd'))
    refine ⟨e :: es, ?_, ?_, ?_⟩
    · simp only [exceptMap, he, hes]
    · simp [hlen]
    · simp only [List.map_cons, hmap, (frameRow_ok_parts he).1]

/-- C4: for every table whose rows are as wide as the header and whose header
has the required columns, the base variant returns exactly one example per row
in the table's row order, and each example's identifier is
`"{split}-image_id_{ImageID}-id_{ID}"` from that row's (filled) cells. -/
theorem frame_create_examples_roundtrip (t : Table) (s : String)
    (hrect : ∀ d ∈ t.rows, t.header.length ≤ d.length)
    (h1 : "ImageID" ∈ t.header) (h2 : "ID" ∈ t.header)
    (h3 : "news_title" ∈ t.header) (h4 : "Q3 Theme1" ∈ t.header) :
    ∃ es, frame_create_examples t s = Except.ok es ∧
      es.length = t.rows.length ∧
      es.map InputExample.guid =
        t.rows.map (fun d => frameGuid s (rowCell t.header d "ImageID") (rowCell t.header d "ID")) :=
  frame_rows_ok t.header s h1 h2 h3 h4 t.rows hrect

/-- C4 witness: a two-row table builds two examples whose identifiers follow
the guid format in row order. -/
theorem frame_create_examples_roundtrip_witness :
    ∃ es, frame_create_examples
        (Table.mk ["ImageID", "ID", "news_title", "Q3 Theme1"]
          [[some "42", some "7", some "Sample headline", some "3"],
           [some "43", some "8", some "Other headline", some "5"]]) "dev" =
        Except.ok es ∧
      es.length = 2 ∧
      es.map InputExample.guid = ["dev-image_id_42-id_7", "dev-image_id_43-id_8"] :=
  frame_create_examples_roundtrip
    (Table.mk ["ImageID", "ID", "news_title", "Q3 Theme1"]
      [[some "42", some "7", some "Sample headline", some "3"],
       [some "43", some "8", some "Other headline", some "5"]]) "dev"
    (by decide) (by decide) (by decide) (by decide) (by decide)

/-- C3: on the same table, the base+secondary variant's `text_a` values equal
the base variant's `text_a` values row-for-row, and the secondary-only
variant's `text_a` values equal the base+secondary variant's `text_b` values
row-for-row. -/
theorem variant_field_selection (t : Table) (s : String)
    (es1 es2 es3 : List InputExample)
    (hbase : frame_create_examples t s = Except.ok es1)
    (hweb : webdetect_create_examples t s = Except.ok es2)
    (honly : webdetectonly_create_examples t s = Except.ok es3) :
    es2.map InputExample.text_a = es1.map InputExample.text_a ∧
    es3.map (fun e => some e.text_a) = es2.map InputExample.text_b := by
  have f1 := exceptMap_ok_forall2 hbase
  have f2 := exceptMap_ok_forall2 hweb
  have f3 := exceptMap_ok_forall2 honly
  constructor
  · refine forall2_map_eq ?_ f2 f1
    intro d e2 e1 hw hb
    exact ((webdetectRow_ok_parts hw).1).trans ((frameRow_ok_parts hb).2.1).symm
  · refine forall2_map_eq ?_ f3 f2
    intro d e3 e2 ho hw
    rw [webdetectonlyRow_ok_parts ho, (webdetectRow_ok_parts hw).2]

/-- C3 witness: on a one-row table with all referenced columns, the three
variants agree as the claim states. -/
theorem variant_field_selection_witness :
    ([InputExample.mk "dev-image_id_42-id_7" "Sample headline" (some "entityA;entityB") "3"].map
        InputExample.text_a =
      [InputExample.mk "dev-image_id_42-id_7" "Sample headline" none "3"].map
        InputExample.text_a) ∧
    ([InputExample.mk "dev-image_id_42-id_7" "entityA;entityB" none "3"].map
        (fun e => some e.text_a) =
      [InputExample.mk "dev-image_id_42-id_7" "Sample headline" (some "entityA;entityB") "3"].map
        InputExample.text_b) :=
  variant_field_selection
    (Table.mk ["ImageID", "ID", "news_title", "Q3 Theme1", "WebDetectEntities"]
      [[some "42", some "7", some "Sample headline", some "3", some "entityA;entityB"]])
    "dev"
    [InputExample.mk "dev-image_id_42-id_7" "Sample headline" none "3"]
    [InputExample.mk "dev-image_id_42-id_7" "Sample headline" (some "entityA;entityB") "3"]
    [InputExample.mk "dev-image_id_42-id_7" "entityA;entityB" none "3"]
    rfl rfl rfl

/-- C2 (amended): the identifiers of the returned examples are pairwise
distinct provided the rows' filled (ImageID, ID) pairs are pairwise distinct
and all filled ID cells have the same length; in general the builder does
nothing to enforce uniqueness. -/
theorem frame_guids_distinct (t : Table) (s : String) (es : List InputExample)
    (hok : frame_create_examples t s = Except.ok es)
    (hkeys : List.Pairwise (fun d d' =>
      (rowCell t.header d "ImageID", rowCell t.header d "ID") ≠
      (rowCell t.header d' "ImageID", rowCell t.header d' "ID")) t.rows)
    (hlen : ∀ d ∈ t.rows, ∀ d' ∈ t.rows,
      (rowCell t.header d "ID").length = (rowCell t.header d' "ID").length) :
    List.Pairwise (fun a b => a ≠ b) (es.map InputExample.guid) := by
  apply List.pairwise_map.mpr
  have hf := exceptMap_ok_forall2 hok
  apply forall2_pairwise hf hkeys
  intro d hd d' hd' e e' he he' hne hguid
  apply hne
  have g1 := (frameRow_ok_parts he).1
  have g2 := (frameRow_ok_parts he').1
  have hg : frameGuid s (rowCell t.header d "ImageID") (rowCell t.header d "ID") =
      frameGuid s (rowCell t.header d' "ImageID") (rowCell t.header d' "ID") := by
    rw [← g1, ← g2, hguid]
  obtain ⟨ha, hb⟩ := frameGuid_inj (hlen d hd d' hd') hg
  rw [ha, hb]

/-- C2 witness: two rows with distinct (ImageID, ID) pairs and same-length IDs
produce distinct identifiers. -/
theorem frame_guids_distinct_witness :
    List.Pairwise (fun a b => a ≠ b)
      (([InputExample.mk "train-image_id_1-id_7" "a" none "3",
         InputExample.mk "train-image_id_2-id_8" "b" none "4"]).map InputExample.guid) :=
  frame_guids_distinct
    (Table.mk ["ImageID", "ID", "news_title", "Q3 Theme1"]
      [[some "1", some "7", some "a", some "3"],
       [some "2", some "8", some "b", some "4"]])
    "train"
    [InputExample.mk "train-image_id_1-id_7" "a" none "3",
     InputExample.mk "train-image_id_2-id_8" "b" none "4"]
    rfl (by decide) (by decide)

/-- C2 counterexample: two rows with equal ImageID and ID cells give two
examples with the same identifier, so the returned identifiers are not
pairwise distinct; moreover even distinct (ImageID, ID) pairs can collide
through the `-id_` separator (second table). -/
theorem frame_guid_collision :
    (frame_create_examples
        (Table.mk ["ImageID", "ID", "news_title", "Q3 Theme1"]
          [[some "1", some "1", some "a", some "3"],
           [some "1", some "1", some "b", some "3"]]) "train").map
        (List.map InputExample.guid) =
      Except.ok ["train-image_id_1-id_1", "train-image_id_1-id_1"] ∧
    ¬ List.Pairwise (fun a b => a ≠ b)
        (["train-image_id_1-id_1", "train-image_id_1-id_1"] : List String) ∧
    (frame_create_examples
        (Table.mk ["ImageID", "ID", "news_title", "Q3 Theme1"]
          [[some "1-id_2", some "3", some "a", some "3"],
           [some "1", some "2-id_3", some "b", some "3"]]) "train").map
        (List.map InputExample.guid) =
      Except.ok ["train-image_id_1-id_2-id_3", "train-image_id_1-id_2-id_3"] :=
  ⟨rfl, by decide, rfl⟩

/-- C8 (amended): for every table with at least one row whose header lacks any
one of the columns referenced by the row mapping (`ImageID`, `ID`,
`news_title` or `Q3 Theme1`), the base builder fails with a missing-column
error; the failure is fatal for the whole call, so no list of examples is
returned. -/
theorem missing_column_error (t : Table) (s : String) (c : String)
    (hc : c = "ImageID" ∨ c = "ID" ∨ c = "news_title" ∨ c = "Q3 Theme1")
    (hmiss : c ∉ t.header) (hne : t.rows ≠ []) :
    ∃ msg, frame_create_examples t s = Except.error msg := by
  cases hrows : t.rows with
  | nil => exact absurd hrows hne
  | cons d ds =>
    have hrow : ∃ msg, frameRow t.header s d = Except.error msg := by
      cases hr : frameRow t.header s d with
      | error msg => exact ⟨msg, rfl⟩
      | ok e =>
        obtain ⟨v, hv⟩ := frameRow_ok_lookup hr c hc
        rw [lookup_fillRow, lookup_zip_none hmiss d] at hv
        exact absurd hv (by simp)
    obtain ⟨msg, hmsg⟩ := hrow
    refine ⟨msg, ?_⟩
    show exceptMap (frameRow t.header s) t.rows = Except.error msg
    rw [hrows]
    simp only [exceptMap, hmsg]

/-- C8 witness: a one-row table without an `ID` column makes the build call
fail. -/
theorem missing_column_error_witness :
    ∃ msg, frame_create_examples
        (Table.mk ["ImageID", "news_title", "Q3 Theme1"]
          [[some "1", some "headline", some "3"]]) "train" = Except.error msg :=
  missing_column_error
    (Table.mk ["ImageID", "news_title", "Q3 Theme1"]
      [[some "1", some "headline", some "3"]]) "train"
    "ID" (Or.inr (Or.inl rfl)) (by decide) (by decide)

/-- C8 counterexample: a zero-row table whose header lacks `ID` does not fail;
the build call returns the empty example list, because the per-row column
access never runs. -/
theorem missing_id_empty_table_ok :
    "ID" ∉ (Table.mk ["news_title"] ([] : List (List (Option String)))).header ∧
    frame_create_examples (Table.mk ["news_title"] []) "train" = Except.ok [] :=
  ⟨by decide, rfl⟩

/-- C9: a row whose `news_title` cell is blank (`NaN`, i.e. `none`) or the
empty string yields an example whose `text_a` is the empty string; missing
cells are normalized before use, and `text_a` is a `String`, never a
null-like marker. -/
theorem news_title_empty_normalized (t : Table) (s : String) (es : List InputExample)
    (hok : frame_create_examples t s = Except.ok es)
    (i : Nat) (hi : i < t.rows.length) (hie : i < es.length)
    (hcell : (t.header.zip (t.rows.get ⟨i, hi⟩)).lookup "news_title" = some none ∨
             (t.header.zip (t.rows.get ⟨i, hi⟩)).lookup "news_title" = some (some "")) :
    (es.get ⟨i, hie⟩).text_a = "" := by
  have hf := exceptMap_ok_forall2 hok
  have hrel := (List.forall₂_iff_get.mp hf).2 i hi hie
  have hta := (frameRow_ok_parts hrel).2.1
  rw [hta]
  unfold rowCell
  rw [lookup_fillRow]
  rcases hcell with h | h <;> rw [h] <;> rfl

/-- C9 witness: a row with a `NaN` `news_title` cell builds an example with
empty `text_a`. -/
theorem news_title_empty_normalized_witness :
    (([InputExample.mk "train-image_id_1-id_2" "" none "3"]).get ⟨0, by decide⟩).text_a = "" :=
  news_title_empty_normalized
    (Table.mk ["ImageID", "ID", "news_title", "Q3 Theme1"]
      [[some "1", some "2", none, some "3"]]) "train"
    [InputExample.mk "train-image_id_1-id_2" "" none "3"]
    rfl 0 (by decide) (by decide) (Or.inl rfl)

end NewsFraming
